import Mathlib

/-!
Shallow embedding of the `ofx_generator` Python package
(`src/ofx_generator/{standards,formatters,models,generator}.py`).

Python scalar values are modelled as follows:
* `datetime.date` as `PyDate` (year/month/day as naturals; CPython enforces
  1 ≤ year ≤ 9999, 1 ≤ month ≤ 12, 1 ≤ day ≤ 31 at construction);
* `decimal.Decimal` as `PyDecimal`, a signed coefficient together with a
  non-negative decimal scale (the value is `mantissa / 10 ^ scale`); this
  covers every finite decimal with exponent ≤ 0, i.e. every literal such as
  `Decimal("-100.00")`; special values (NaN, infinities, negative zero,
  positive exponents) are outside the model;
* `float` as `PyFloat`, observed in this code base only through `str`, hence
  modelled by its shortest-round-trip repr string;
* raised exceptions as `Except String`.
-/

namespace OFX

/-- Model of `datetime.date`: a proleptic Gregorian calendar date. -/
structure PyDate where
  year : Nat
  month : Nat
  day : Nat
  deriving DecidableEq, Repr

/-- CPython's constraints on `datetime.date` components (upper day bound
relaxed to 31; the month-specific bound is irrelevant to formatting). -/
def PyDate.valid (d : PyDate) : Prop :=
  1 ≤ d.year ∧ d.year ≤ 9999 ∧ 1 ≤ d.month ∧ d.month ≤ 12 ∧ 1 ≤ d.day ∧ d.day ≤ 31

instance (d : PyDate) : Decidable d.valid := by
  unfold PyDate.valid
  infer_instance

/-- Python `date` comparison is lexicographic on (year, month, day). -/
def PyDate.le (a b : PyDate) : Bool :=
  decide (a.year < b.year) ||
    (decide (a.year = b.year) &&
      (decide (a.month < b.month) ||
        (decide (a.month = b.month) && decide (a.day ≤ b.day))))

/-- The last `width` decimal digits of `n`, zero padded to exactly `width`
characters (for `n < 10 ^ width` this is the zero-padded decimal rendering). -/
def digitsPad (n : Nat) : Nat → List Char
  | 0 => []
  | width + 1 => digitsPad (n / 10) width ++ [Nat.digitChar (n % 10)]

/-- Decimal digits of `n` without leading zeros, via explicit fuel so that the
recursion is structural (the fuel `n + 1` always suffices). -/
def natDigitsAux : Nat → Nat → List Char
  | _, 0 => []
  | n, fuel + 1 =>
    if n < 10 then [Nat.digitChar n]
    else natDigitsAux (n / 10) fuel ++ [Nat.digitChar (n % 10)]

/-- Decimal rendering of a natural number (model of CPython's integer
to-string used inside `str` / `format` of `Decimal`). -/
def natDigits (n : Nat) : List Char :=
  natDigitsAux n (n + 1)

/-- Read a list of decimal digit characters back as a natural number
(most significant first). -/
def parseDigits (l : List Char) : Nat :=
  l.foldl (fun a c => 10 * a + (c.toNat - 48)) 0

/-- Model of `value.strftime("%Y%m%d")` on a `datetime.date`: the year zero
padded to four digits, month and day to two (the zero-padded renderings
documented for CPython's `%Y`/`%m`/`%d`). -/
def strftime_Ymd (value : PyDate) : String :=
  String.mk (digitsPad value.year 4 ++ digitsPad value.month 2 ++ digitsPad value.day 2)

/-- `formatters.DefaultDateFormatter.format` (formatters.py lines 73-83):
`value.strftime("%Y%m%d")`. -/
def DefaultDateFormatter.format (value : PyDate) : String :=
  strftime_Ymd value

/-- `formatters.format_datetime` (formatters.py lines 107-109):
`value.strftime("%Y%m%d")`. -/
def format_datetime (value : PyDate) : String :=
  strftime_Ymd value

/-- `formatters.format_ofx_header` (formatters.py lines 112-116). -/
def format_ofx_header : String :=
  "<?OFX OFXHEADER=\"200\" VERSION=\"230\" SECURITY=\"NONE\" OLDFILEUID=\"NONE\" NEWFILEUID=\"NONE\"?>\n"

/-- Inverse of the `YYYYMMDD` convention: split an 8-digit string into its
year, month and day fields. -/
def parseYYYYMMDD (s : String) : Option PyDate :=
  let l := s.data
  if l.length = 8 && l.all Char.isDigit then
    some ⟨parseDigits (l.take 4), parseDigits ((l.drop 4).take 2), parseDigits (l.drop 6)⟩
  else
    none

/-- Model of a finite `decimal.Decimal` with non-positive exponent: the value
denoted is `mantissa / 10 ^ scale`. -/
structure PyDecimal where
  mantissa : Int
  scale : Nat
  deriving DecidableEq, Repr

/-- The exact rational value a `PyDecimal` denotes. -/
def PyDecimal.toRat (d : PyDecimal) : ℚ :=
  (d.mantissa : ℚ) / ((10 : ℚ) ^ d.scale)

/-- Model of `str` on a Python `float`: the float is observed in this code
base only through `str`, so it is carried as its repr string. -/
structure PyFloat where
  reprStr : String
  deriving DecidableEq, Repr

def pyFloatStr (f : PyFloat) : String :=
  f.reprStr

/-- Model of `str` on a `decimal.Decimal` (CPython `Decimal.__str__`): the
sign, then the coefficient digits in fixed-point form when the adjusted
exponent is at least -6 (a decimal point inserted before the last `scale`
digits, padding with leading zeros), and in scientific notation otherwise. -/
def pyDecimalStr (d : PyDecimal) : String :=
  let sign := if d.mantissa < 0 then "-" else ""
  let digits := natDigits d.mantissa.natAbs
  if d.scale = 0 then
    sign ++ String.mk digits
  else if (digits.length : Int) - 1 - (d.scale : Int) ≥ -6 then
    let padded :=
      if digits.length ≤ d.scale then
        List.replicate (d.scale + 1 - digits.length) '0' ++ digits
      else digits
    sign ++ String.mk (padded.take (padded.length - d.scale)) ++ "." ++
      String.mk (padded.drop (padded.length - d.scale))
  else
    let exp := d.scale + 1 - digits.length
    sign ++ String.mk (digits.take 1) ++
      (if digits.length ≤ 1 then "" else "." ++ String.mk (digits.drop 1)) ++
      "E-" ++ String.mk (natDigits exp)

/-- Round `a / den` to the nearest integer, ties to even (the rounding
`decimal` applies when `format` reduces the number of fractional digits). -/
def roundHalfEvenNat (a den : Nat) : Nat :=
  let q := a / den
  let r := a % den
  if 2 * r < den then q
  else if den < 2 * r then q + 1
  else if q % 2 = 0 then q else q + 1

/-- The coefficient of `|value|` quantized to two fractional digits: the
number of cents, computed exactly when the scale is at most 2 and with
round-half-to-even otherwise (the quantization the `.2f` format spec applies
to a `Decimal`). -/
def amountCents (value : PyDecimal) : Nat :=
  if value.scale ≤ 2 then value.mantissa.natAbs * 10 ^ (2 - value.scale)
  else roundHalfEvenNat value.mantissa.natAbs (10 ^ (value.scale - 2))

/-- `formatters.DefaultAmountFormatter.format` (formatters.py lines 94-104):
the f-string conversion of a `Decimal` with format spec `.2f`, which renders
the value quantized to two fractional digits with round-half-to-even, the
sign preserved: the minus sign for a negative coefficient, the integer part,
a point, and exactly two fractional digits. -/
def DefaultAmountFormatter.format (value : PyDecimal) : String :=
  (if value.mantissa < 0 then "-" else "") ++
    String.mk (natDigits (amountCents value / 100)) ++ "." ++
    String.mk (digitsPad (amountCents value % 100) 2)

/-- Parse a positive OFX amount body: a non-empty run of decimal digits, a
point, then exactly two decimal digits; the denoted rational otherwise
`none`. -/
def parseAmountPos (l : List Char) : Option ℚ :=
  match l.drop (l.length - 3) with
  | dot :: d1 :: d2 :: [] =>
    let ip := l.take (l.length - 3)
    if dot = '.' && !ip.isEmpty && ip.all Char.isDigit && d1.isDigit && d2.isDigit then
      some ((parseDigits ip : ℚ) + (parseDigits [d1, d2] : ℚ) / 100)
    else none
  | _ => none

/-- Parse an OFX amount string: an optional leading minus sign (a leading
plus is not accepted) followed by a `parseAmountPos` body - the inverse of
the two-fractional-digit amount convention. -/
def parseAmount (s : String) : Option ℚ :=
  match s.data with
  | [] => none
  | ch :: rest =>
    if ch = '-' then (parseAmountPos rest).map Neg.neg
    else parseAmountPos (ch :: rest)

/-! ## standards.py -/

/-- `standards.TransactionType` (standards.py lines 12-35). -/
inductive TransactionType where
  | CREDIT | DEBIT | INTEREST | DIVIDEND | FEE | SERVICE_CHARGE | DEPOSIT
  | ATM | POINT_OF_SALE | TRANSFER | CHECK | PAYMENT | CASH
  | DIRECT_DEPOSIT | DIRECT_DEBIT | REPEATING_PAYMENT | OTHER
  deriving DecidableEq, Repr

/-- The string code of each `TransactionType` member. -/
def TransactionType.value : TransactionType → String
  | .CREDIT => "CREDIT"
  | .DEBIT => "DEBIT"
  | .INTEREST => "INT"
  | .DIVIDEND => "DIV"
  | .FEE => "FEE"
  | .SERVICE_CHARGE => "SRVCHG"
  | .DEPOSIT => "DEP"
  | .ATM => "ATM"
  | .POINT_OF_SALE => "POS"
  | .TRANSFER => "XFER"
  | .CHECK => "CHECK"
  | .PAYMENT => "PAYMENT"
  | .CASH => "CASH"
  | .DIRECT_DEPOSIT => "DIRECTDEP"
  | .DIRECT_DEBIT => "DIRECTDEBIT"
  | .REPEATING_PAYMENT => "REPEATPMT"
  | .OTHER => "OTHER"

/-- `standards.AccountType` (standards.py lines 38-49). -/
inductive AccountType where
  | CHECKING | SAVINGS | MONEY_MARKET | CREDIT_LINE | CERTIFICATE_OF_DEPOSIT
  deriving DecidableEq, Repr

def AccountType.value : AccountType → String
  | .CHECKING => "CHECKING"
  | .SAVINGS => "SAVINGS"
  | .MONEY_MARKET => "MONEYMRKT"
  | .CREDIT_LINE => "CREDITLINE"
  | .CERTIFICATE_OF_DEPOSIT => "CD"

/-- Calling the enum on a raw code, `AccountType(s)`: the member whose value
is `s`, or a `ValueError` (modelled as `none`) for an unknown code. -/
def AccountType.fromCode (s : String) : Option AccountType :=
  if s = "CHECKING" then some .CHECKING
  else if s = "SAVINGS" then some .SAVINGS
  else if s = "MONEYMRKT" then some .MONEY_MARKET
  else if s = "CREDITLINE" then some .CREDIT_LINE
  else if s = "CD" then some .CERTIFICATE_OF_DEPOSIT
  else none

/-- `standards.Language` (standards.py lines 52-64). -/
inductive Language where
  | ENGLISH | PORTUGUESE | SPANISH | FRENCH | GERMAN | ITALIAN
  deriving DecidableEq, Repr

def Language.value : Language → String
  | .ENGLISH => "ENG"
  | .PORTUGUESE => "POR"
  | .SPANISH => "SPA"
  | .FRENCH => "FRA"
  | .GERMAN => "DEU"
  | .ITALIAN => "ITA"

/-- `standards.Currency` (standards.py lines 67-77). -/
inductive Currency where
  | US_DOLLAR | BRAZILIAN_REAL | EURO | BRITISH_POUND
  deriving DecidableEq, Repr

def Currency.value : Currency → String
  | .US_DOLLAR => "USD"
  | .BRAZILIAN_REAL => "BRL"
  | .EURO => "EUR"
  | .BRITISH_POUND => "GBP"

/-- `standards.Security` (standards.py lines 80-88). -/
inductive Security where
  | NONE | TYPE1
  deriving DecidableEq, Repr

/-- `standards.Encoding` (standards.py lines 91-99). -/
inductive Encoding where
  | ASCII | UTF8
  deriving DecidableEq, Repr

/-- `standards.Compression` (standards.py lines 102-109). -/
inductive Compression where
  | NONE
  deriving DecidableEq, Repr

/-- `standards.OFXVersion.validate` (standards.py lines 122-125): membership
in `SUPPORTED_VERSIONS = {211}`. -/
def OFXVersion.validate (version : Nat) : Bool :=
  [211].contains version

/-- `standards.CharSet.validate` (standards.py lines 137-140): membership in
`VALID_CHARSETS = {1252}`. -/
def CharSet.validate (charset : Nat) : Bool :=
  [1252].contains charset

/-- `standards.validate_date_range` (standards.py lines 143-149):
`end_date >= start_date`. -/
def validate_date_range (start_date end_date : PyDate) : Bool :=
  PyDate.le start_date end_date

/-- Model of Python `str.isalnum` on one character, for code points below
`0x100` (ASCII letters and digits plus the Latin-1 letters `ª µ º`,
`À`-`Ö`, `Ø`-`ö`, `ø`-`ÿ` and the numeric characters `² ³ ¹ ¼ ½ ¾`);
`str.isalnum` is the Unicode predicate, not an ASCII-only one. -/
def pyIsAlnum (c : Char) : Bool :=
  c.isAlphanum ||
    (let n := c.toNat
     n == 0xAA || n == 0xB5 || n == 0xBA ||
       (decide (0xC0 ≤ n) && decide (n ≤ 0xFF) && !(n == 0xD7) && !(n == 0xF7)) ||
       n == 0xB2 || n == 0xB3 || n == 0xB9 || n == 0xBC || n == 0xBD || n == 0xBE)

/-- `standards.validate_bank_id` (standards.py lines 152-158):
`bool(bank_id and bank_id.isalnum() and len(bank_id) <= 9)`. -/
def validate_bank_id (bank_id : String) : Bool :=
  !bank_id.isEmpty && bank_id.data.all pyIsAlnum && decide (bank_id.length ≤ 9)

/-- `standards.validate_branch_id` (standards.py lines 161-167):
`bool(branch_id and len(branch_id) <= 22)`. -/
def validate_branch_id (branch_id : String) : Bool :=
  !branch_id.isEmpty && decide (branch_id.length ≤ 22)

/-- `standards.validate_account_id` (standards.py lines 170-176):
`bool(account_id and len(account_id) <= 22)`. -/
def validate_account_id (account_id : String) : Bool :=
  !account_id.isEmpty && decide (account_id.length ≤ 22)

/-- `standards.validate_fit_id` (standards.py lines 179-185):
`bool(fit_id and len(fit_id) <= 255)`. -/
def validate_fit_id (fit_id : String) : Bool :=
  !fit_id.isEmpty && decide (fit_id.length ≤ 255)

/-! ## models.py -/

/-- `models.FinancialInstitution` (models.py lines 32-48). -/
structure FinancialInstitution where
  org : String
  fid : String
  deriving DecidableEq, Repr

/-- `FinancialInstitution` construction: the dataclass `__init__` followed by
`__post_init__` (models.py lines 44-48). -/
def FinancialInstitution.make (org fid : String) : Except String FinancialInstitution :=
  if org.isEmpty || decide (org.length > 60) then
    .error "Organization name must be between 1 and 60 characters"
  else if fid.isEmpty || decide (fid.length > 32) then
    .error "FID must be between 1 and 32 characters"
  else
    .ok ⟨org, fid⟩

/-- `models.BankAccount` (models.py lines 51-75), after construction (the
raw account-type code coerced to the enum member). -/
structure BankAccount where
  bank_id : String
  account_id : String
  account_type : AccountType
  branch_id : Option String
  deriving DecidableEq, Repr

/-- `BankAccount` construction from raw field values: the dataclass
`__init__` followed by `__post_init__` (models.py lines 67-75); the account
type is given as its raw string code and coerced with `AccountType(...)`,
whose `ValueError` for an unknown code is the last error case. -/
def BankAccount.make (bank_id account_id account_type : String)
    (branch_id : Option String) : Except String BankAccount :=
  if !validate_bank_id bank_id then
    .error "Invalid bank ID format"
  else if !validate_account_id account_id then
    .error "Invalid account ID format"
  else if (match branch_id with
           | some b => !b.isEmpty && !validate_branch_id b
           | none => false) then
    .error "Invalid branch ID format"
  else
    match AccountType.fromCode account_type with
    | some t => .ok ⟨bank_id, account_id, t, branch_id⟩
    | none => .error ("'" ++ account_type ++ "' is not a valid AccountType")

/-- `models.Transaction` (models.py lines 78-124). -/
structure Transaction where
  transaction_type : TransactionType
  date_posted : PyDate
  amount : PyDecimal
  fit_id : String
  check_num : Option String
  ref_num : Option String
  memo : Option String
  deriving DecidableEq, Repr

/-- `Transaction.__init__` (models.py lines 92-112) - the constructor that
actually runs when `Transaction(...)` is called: it raises for
`amount == Decimal("0")` (numeric equality) and otherwise stores the fields.
`Transaction` is decorated with `@dataclass` but defines `__init__` in the
class body, so `dataclass` does not install its generated `__init__` and
`__post_init__` (models.py lines 114-124, holding the `validate_fit_id`,
memo, check-number and reference-number checks) is never invoked. -/
def Transaction.init (transaction_type : TransactionType) (date_posted : PyDate)
    (amount : PyDecimal) (fit_id : String)
    (check_num ref_num memo : Option String) : Except String Transaction :=
  if amount.toRat = 0 then
    .error "Transaction amount cannot be zero"
  else
    .ok ⟨transaction_type, date_posted, amount, fit_id, check_num, ref_num, memo⟩

/-- The checks `Transaction.__post_init__` (models.py lines 114-124) would
perform if it ran; it never does (see `Transaction.init`). -/
def Transaction.postInitChecks (t : Transaction) : Except String Unit :=
  if !validate_fit_id t.fit_id then
    .error "Invalid FIT ID format"
  else if (match t.memo with
           | some m => !m.isEmpty && decide (m.length > 255)
           | none => false) then
    .error "Memo must not exceed 255 characters"
  else if (match t.check_num with
           | some c => !c.isEmpty && decide (c.length > 32)
           | none => false) then
    .error "Check number must not exceed 32 characters"
  else if (match t.ref_num with
           | some r => !r.isEmpty && decide (r.length > 32)
           | none => false) then
    .error "Reference number must not exceed 32 characters"
  else
    .ok ()

/-- `models.Balance` (models.py lines 127-137). -/
structure Balance where
  amount : PyDecimal
  date_as_of : PyDate
  deriving DecidableEq, Repr

/-- `models.OFXSettings` (models.py lines 140-176), after construction. -/
structure OFXSettings where
  language : Language
  currency : Currency
  version : Nat
  encoding : Encoding
  charset : Nat
  security : Security
  compression : Compression
  deriving DecidableEq, Repr

/-- `models.CreditCardAccount` (models.py lines 218-230). -/
structure CreditCardAccount where
  cash_advance_available_amount : PyFloat
  cash_advance_credit_limit : PyFloat
  deriving DecidableEq, Repr

/-- `models.BankStatement` (models.py lines 179-215). -/
structure BankStatement where
  financial_institution : FinancialInstitution
  bank_account : BankAccount
  balance : Balance
  start_date : PyDate
  end_date : PyDate
  transactions : List Transaction
  settings : OFXSettings
  credit_card_account : Option CreditCardAccount
  deriving DecidableEq, Repr

/-- `BankStatement.__post_init__` (models.py lines 213-215) applied to an
assembled statement: the date-range validation construction enforces. -/
def BankStatement.postInit (s : BankStatement) : Except String Unit :=
  if !validate_date_range s.start_date s.end_date then
    .error "End date must not be before start date"
  else
    .ok ()

/-! ## generator.py

The generator builds an `xml.etree.ElementTree` tree and serializes it.
An element is modelled by its tag, its attributes in insertion order, its
optional text and its children in insertion order (`tail` is never set by
this code and is omitted). Each `_add_*` method only appends sub-elements to
the element it is handed, so each is modelled as the subtree(s) it appends. -/

inductive XElem where
  | mk (tag : String) (attrs : List (String × String)) (text : Option String)
      (children : List XElem)
  deriving Repr

def XElem.tag : XElem → String
  | .mk t _ _ _ => t

def XElem.attrs : XElem → List (String × String)
  | .mk _ a _ _ => a

def XElem.text : XElem → Option String
  | .mk _ _ x _ => x

def XElem.children : XElem → List XElem
  | .mk _ _ _ cs => cs

/-- A sub-element with no attributes and no children of its own, as built by
`ET.SubElement(parent, tag).text = ...`. -/
def xleaf (tag : String) (text : Option String) : XElem :=
  .mk tag [] text []

/-- `xml.etree.ElementTree`'s `_escape_cdata`, applied to element text. -/
def escape_cdata (s : String) : String :=
  String.join (s.data.map (fun c =>
    if c = '&' then "&amp;"
    else if c = '<' then "&lt;"
    else if c = '>' then "&gt;"
    else String.mk [c]))

/-- `xml.etree.ElementTree`'s `_escape_attrib`, applied to attribute values. -/
def escape_attrib (s : String) : String :=
  String.join (s.data.map (fun c =>
    if c = '&' then "&amp;"
    else if c = '<' then "&lt;"
    else if c = '>' then "&gt;"
    else if c = '"' then "&quot;"
    else if c = '\r' then "&#13;"
    else if c = '\n' then "&#10;"
    else if c = '\t' then "&#09;"
    else String.mk [c]))

mutual

/-- `ET.tostring(elem, encoding="unicode", method="xml")`: the start tag with
its attributes in insertion order, then - when the element has text or
children - the escaped text and the serialized children followed by the end
tag, and a self-closing `" />"` otherwise (`tail` is never set here). -/
def serializeXml : XElem → String
  | .mk t attrs txt cs =>
    "<" ++ t ++
      String.join (attrs.map (fun p => " " ++ p.1 ++ "=\"" ++ escape_attrib p.2 ++ "\"")) ++
      (if (txt.getD "").isEmpty && cs.isEmpty then " />"
       else ">" ++ escape_cdata (txt.getD "") ++ serializeXmlList cs ++ "</" ++ t ++ ">")

def serializeXmlList : List XElem → String
  | [] => ""
  | c :: cs => serializeXml c ++ serializeXmlList cs

end

/-- The status block both `_add_signon_response` (generator.py lines 49-51)
and `_add_bank_statement` (generator.py lines 66-68) build: code "0",
severity "INFO". -/
def statusOkElem : XElem :=
  .mk "STATUS" [] none [xleaf "CODE" (some "0"), xleaf "SEVERITY" (some "INFO")]

/-- `OFXGenerator._add_signon_response` (generator.py lines 44-58): the
`SIGNONMSGSRSV1` subtree appended to the root. -/
def addSignonResponse (statement : BankStatement) : XElem :=
  .mk "SIGNONMSGSRSV1" [] none
    [.mk "SONRS" [] none
      [statusOkElem,
       xleaf "DTSERVER" (some (format_datetime statement.end_date)),
       xleaf "LANGUAGE" (some statement.settings.language.value),
       .mk "FI" [] none
         [xleaf "ORG" (some statement.financial_institution.org),
          xleaf "FID" (some statement.financial_institution.fid)]]]

/-- `OFXGenerator._add_account_info` (generator.py lines 78-84): the
`BANKACCTFROM` subtree; note `BRANCHID` is always appended and its text is
the raw optional `branch_id`. -/
def addAccountInfo (account : BankAccount) : XElem :=
  .mk "BANKACCTFROM" [] none
    [xleaf "BANKID" (some account.bank_id),
     xleaf "BRANCHID" account.branch_id,
     xleaf "ACCTID" (some account.account_id),
     xleaf "ACCTTYPE" (some account.account_type.value)]

/-- One optional `STMTTRN` sub-element, guarded by Python truthiness
(`if transaction.check_num:` and its two siblings, generator.py lines
98-103): `None` and the empty string produce no element. -/
def optionalTextElems (tag : String) : Option String → List XElem
  | some s => if s.isEmpty then [] else [xleaf tag (some s)]
  | none => []

/-- One `STMTTRN` aggregate of the loop body in
`OFXGenerator._add_transactions` (generator.py lines 92-103); the amount
goes through `str(transaction.amount)`, not the amount formatter. -/
def stmttrnElem (transaction : Transaction) : XElem :=
  .mk "STMTTRN" [] none
    ([xleaf "TRNTYPE" (some transaction.transaction_type.value),
      xleaf "DTPOSTED" (some (format_datetime transaction.date_posted)),
      xleaf "TRNAMT" (some (pyDecimalStr transaction.amount)),
      xleaf "FITID" (some transaction.fit_id)] ++
     optionalTextElems "CHECKNUM" transaction.check_num ++
     optionalTextElems "REFNUM" transaction.ref_num ++
     optionalTextElems "MEMO" transaction.memo)

/-- `OFXGenerator._add_transactions` (generator.py lines 86-103): the
`BANKTRANLIST` subtree - `DTSTART`, `DTEND`, then one `STMTTRN` per
transaction in the statement's stored order. -/
def addTransactions (statement : BankStatement) : XElem :=
  .mk "BANKTRANLIST" [] none
    (xleaf "DTSTART" (some (format_datetime statement.start_date)) ::
     xleaf "DTEND" (some (format_datetime statement.end_date)) ::
     statement.transactions.map stmttrnElem)

/-- `OFXGenerator._add_balance` (generator.py lines 105-109); the amount
goes through `str(balance.amount)`. -/
def addBalance (balance : Balance) : XElem :=
  .mk "LEDGERBAL" [] none
    [xleaf "BALAMT" (some (pyDecimalStr balance.amount)),
     xleaf "DTASOF" (some (format_datetime balance.date_as_of))]

/-- `OFXGenerator._add_credit_card_info` (generator.py lines 111-121): the
two elements appended directly under the root when a credit-card account is
present (a dataclass instance is always truthy, so the guard is a None
test). -/
def creditCardInfoElems : Option CreditCardAccount → List XElem
  | some cc =>
    [xleaf "CASHADVAVAILAMT" (some (pyFloatStr cc.cash_advance_available_amount)),
     xleaf "CASHADVCREDITLIMIT" (some (pyFloatStr cc.cash_advance_credit_limit))]
  | none => []

/-- `OFXGenerator._add_bank_statement` (generator.py lines 60-76) without its
final `_add_credit_card_info` call (which appends to the root, not to this
subtree): the `BANKMSGSRSV1` aggregate. -/
def addBankStatement (statement : BankStatement) (trnuid : String) : XElem :=
  .mk "BANKMSGSRSV1" [] none
    [.mk "STMTTRNRS" [] none
      [xleaf "TRNUID" (some trnuid),
       statusOkElem,
       .mk "STMTRS" [] none
         [xleaf "CURDEF" (some statement.settings.currency.value),
          addAccountInfo statement.bank_account,
          addTransactions statement,
          addBalance statement.balance]]]

/-- `OFXGenerator._create_ofx_element` (generator.py lines 34-42) with the
children the `generate` call appends under the root. -/
def createOFXElement (children : List XElem) : XElem :=
  .mk "OFX"
    [("xmlns", "http://ofx.net/ifx/2.0/ofx"),
     ("xmlns:xsi", "http://www.w3.org/2001/XMLSchema-instance")]
    none children

/-- The complete element tree one `generate` call builds: the root with the
sign-on response, the bank-message aggregate, and - when present - the two
credit-card elements appended to the root by `_add_credit_card_info`. -/
def buildOFX (statement : BankStatement) (trnuid : String) : XElem :=
  createOFXElement
    ([addSignonResponse statement, addBankStatement statement trnuid] ++
     creditCardInfoElems statement.credit_card_account)

/-- `generator.OFXGenerator` (generator.py lines 15-25): the two formatter
strategies stored at construction. -/
structure OFXGenerator where
  date_formatter : PyDate → String
  amount_formatter : PyDecimal → String

/-- `OFXGenerator.__init__` (generator.py lines 18-25):
`date_formatter or DefaultDateFormatter()` and likewise for the amount
formatter (a function object is truthy, so only `None` falls back). -/
def OFXGenerator.init (date_formatter : Option (PyDate → String))
    (amount_formatter : Option (PyDecimal → String)) : OFXGenerator :=
  ⟨date_formatter.getD DefaultDateFormatter.format,
   amount_formatter.getD DefaultAmountFormatter.format⟩

/-- The literal first line of `_generate_output` (generator.py line 126). -/
def xmlDeclaration : String :=
  "<?xml version=\"1.0\" encoding=\"UTF-8\" standalone=\"no\"?>\n"

/-- `OFXGenerator.generate` (generator.py lines 27-32) followed by
`_generate_output` (generator.py lines 123-129). The body never consults
`self.date_formatter` or `self.amount_formatter`: every date element is
produced with the module-level `format_datetime` and every monetary text
with `str(...)`. -/
def OFXGenerator.generate (self : OFXGenerator) (statement : BankStatement)
    (trnuid : String) : String :=
  xmlDeclaration ++ format_ofx_header ++ serializeXml (buildOFX statement trnuid)

mutual

/-- Collect every element of the tree with the given tag, in document
order. -/
def elemsByTag (tag : String) : XElem → List XElem
  | .mk t a txt cs => (if t = tag then [.mk t a txt cs] else []) ++ elemsByTagList tag cs

def elemsByTagList (tag : String) : List XElem → List XElem
  | [] => []
  | c :: cs => elemsByTag tag c ++ elemsByTagList tag cs

end

/-! ## Example data: the scenario of spec section 8 -/

def fiEx : FinancialInstitution := ⟨"Example Bank", "000"⟩

def acctEx : BankAccount := ⟨"000", "000000000", .CHECKING, some "0000-0"⟩

def txPayment : Transaction :=
  ⟨.PAYMENT, ⟨2025, 1, 30⟩, ⟨-10000, 2⟩, "PAY1", none, none, none⟩

def txCredit : Transaction :=
  ⟨.CREDIT, ⟨2025, 1, 22⟩, ⟨50000, 2⟩, "CRED1", none, none, none⟩

def settingsEx : OFXSettings :=
  ⟨.PORTUGUESE, .BRAZILIAN_REAL, 211, .UTF8, 1252, .NONE, .NONE⟩

def stmtEx : BankStatement :=
  ⟨fiEx, acctEx, ⟨⟨100000, 2⟩, ⟨2025, 1, 31⟩⟩, ⟨2025, 1, 1⟩, ⟨2025, 1, 31⟩,
   [txPayment, txCredit], settingsEx, none⟩

/-- A caller-supplied date formatter that disagrees with the default one on
every date of the example statement. -/
def constDateFormatter : PyDate → String := fun _ => "19990101"

/-- The example bank account without a branch id. -/
def acctNoBranch : BankAccount := ⟨"000", "000000000", .CHECKING, none⟩

def stmtNoBranch : BankStatement := { stmtEx with bank_account := acctNoBranch }

/-! ## Decimal-digit rendering lemmas -/

theorem digitChar_isDigit {m : Nat} (h : m < 10) : (Nat.digitChar m).isDigit = true := by
  interval_cases m <;> decide

theorem digitChar_val {m : Nat} (h : m < 10) : (Nat.digitChar m).toNat - 48 = m := by
  interval_cases m <;> decide

theorem digitsPad_length (n w : Nat) : (digitsPad n w).length = w := by
  induction w generalizing n with
  | zero => rfl
  | succ w ih => simp [digitsPad, ih]

theorem digitsPad_all_digit (n w : Nat) : ∀ c ∈ digitsPad n w, c.isDigit = true := by
  induction w generalizing n with
  | zero => simp [digitsPad]
  | succ w ih =>
    intro c hc
    simp only [digitsPad, List.mem_append, List.mem_singleton] at hc
    rcases hc with hc | hc
    · exact ih _ c hc
    · exact hc ▸ digitChar_isDigit (Nat.mod_lt _ (by norm_num))

theorem parseDigits_append_last (l : List Char) (c : Char) :
    parseDigits (l ++ [c]) = 10 * parseDigits l + (c.toNat - 48) := by
  simp [parseDigits, List.foldl_append]

theorem parseDigits_digitsPad {n w : Nat} (h : n < 10 ^ w) :
    parseDigits (digitsPad n w) = n := by
  induction w generalizing n with
  | zero =>
    have : n = 0 := by simpa using h
    simp [this, digitsPad, parseDigits]
  | succ w ih =>
    have hdiv : n / 10 < 10 ^ w := by
      rw [Nat.div_lt_iff_lt_mul (by norm_num)]
      calc n < 10 ^ (w + 1) := h
        _ = 10 ^ w * 10 := by ring
    rw [digitsPad, parseDigits_append_last, ih hdiv,
      digitChar_val (Nat.mod_lt _ (by norm_num))]
    omega

/-- C3: for every calendar date the default date formatter returns an
8-character zero-padded digit string YYYYMMDD, parsing it back with the
inverse convention yields the original date, and the date 2025-01-31 is
formatted as "20250131". -/
theorem date_formatter_roundtrip (d : PyDate) (h : d.valid) :
    (DefaultDateFormatter.format d).length = 8 ∧
    (DefaultDateFormatter.format d).data.all Char.isDigit = true ∧
    parseYYYYMMDD (DefaultDateFormatter.format d) = some d ∧
    DefaultDateFormatter.format ⟨2025, 1, 31⟩ = "20250131" := by
  obtain ⟨h1, h2, h3, h4, h5, h6⟩ := h
  have hy : d.year < 10 ^ 4 := by norm_num; omega
  have hm : d.month < 10 ^ 2 := by norm_num; omega
  have hd : d.day < 10 ^ 2 := by norm_num; omega
  have hlen : (digitsPad d.year 4 ++ digitsPad d.month 2 ++ digitsPad d.day 2).length = 8 := by
    simp [digitsPad_length]
  have hdig : (digitsPad d.year 4 ++ digitsPad d.month 2 ++ digitsPad d.day 2).all
      Char.isDigit = true := by
    simp only [List.all_eq_true, List.mem_append]
    rintro c ((hc | hc) | hc)
    · exact digitsPad_all_digit _ _ c hc
    · exact digitsPad_all_digit _ _ c hc
    · exact digitsPad_all_digit _ _ c hc
  refine ⟨hlen, hdig, ?_, rfl⟩
  show parseYYYYMMDD (String.mk _) = some d
  rw [parseYYYYMMDD]
  simp only [hlen, hdig]
  have e1 : (digitsPad d.year 4 ++ digitsPad d.month 2 ++ digitsPad d.day 2).take 4 =
      digitsPad d.year 4 := by
    rw [List.append_assoc, List.take_left' (digitsPad_length _ _)]
  have e2 : (digitsPad d.year 4 ++ digitsPad d.month 2 ++ digitsPad d.day 2).drop 4 =
      digitsPad d.month 2 ++ digitsPad d.day 2 := by
    rw [List.append_assoc, List.drop_left' (digitsPad_length _ _)]
  have e3 : ((digitsPad d.year 4 ++ digitsPad d.month 2 ++ digitsPad d.day 2).drop 4).take 2 =
      digitsPad d.month 2 := by
    rw [e2, List.take_left' (digitsPad_length _ _)]
  have e4 : (digitsPad d.year 4 ++ digitsPad d.month 2 ++ digitsPad d.day 2).drop 6 =
      digitsPad d.day 2 := by
    have : (6 : Nat) = 4 + 2 := by norm_num
    rw [this, ← List.drop_drop, e2, List.drop_left' (digitsPad_length _ _)]
  simp only [e1, e3, e4, parseDigits_digitsPad hy, parseDigits_digitsPad hm,
    parseDigits_digitsPad hd]
  simp

theorem date_formatter_roundtrip_witness :
    (DefaultDateFormatter.format ⟨2025, 1, 31⟩).length = 8 ∧
    (DefaultDateFormatter.format ⟨2025, 1, 31⟩).data.all Char.isDigit = true ∧
    parseYYYYMMDD (DefaultDateFormatter.format ⟨2025, 1, 31⟩) = some ⟨2025, 1, 31⟩ ∧
    DefaultDateFormatter.format ⟨2025, 1, 31⟩ = "20250131" :=
  date_formatter_roundtrip ⟨2025, 1, 31⟩ (by decide)

/-- C1: constructing a `Transaction` with an empty `fit_id` (which
`validate_fit_id` rejects) nevertheless succeeds, because the hand-written
`__init__` keeps the dataclass machinery from ever calling `__post_init__`;
the checks that method would have made reject exactly this input. -/
theorem transaction_empty_fit_id_accepted :
    Transaction.init .CREDIT ⟨2025, 1, 1⟩ ⟨100, 2⟩ "" none none none =
      .ok ⟨.CREDIT, ⟨2025, 1, 1⟩, ⟨100, 2⟩, "", none, none, none⟩ ∧
    validate_fit_id "" = false ∧
    Transaction.postInitChecks ⟨.CREDIT, ⟨2025, 1, 1⟩, ⟨100, 2⟩, "", none, none, none⟩ =
      .error "Invalid FIT ID format" := by
  refine ⟨?_, by decide, rfl⟩
  rw [Transaction.init, if_neg (by norm_num [PyDecimal.toRat])]

/-- C8: `Transaction` construction raises "Transaction amount cannot be
zero" exactly when the amount equals zero as a number, and succeeds exactly
when it is non-zero (the zero-amount check is the only check that runs). -/
theorem transaction_zero_amount_check (transaction_type : TransactionType)
    (date_posted : PyDate) (amount : PyDecimal) (fit_id : String)
    (check_num ref_num memo : Option String) :
    (Transaction.init transaction_type date_posted amount fit_id check_num ref_num memo =
        .error "Transaction amount cannot be zero" ↔ amount.toRat = 0) ∧
    ((Transaction.init transaction_type date_posted amount fit_id check_num ref_num
        memo).isOk = true ↔ ¬amount.toRat = 0) := by
  rw [Transaction.init]
  split_ifs with h
  · refine ⟨by simp [h], ?_⟩
    rw [show (Except.error "Transaction amount cannot be zero" :
      Except String Transaction).isOk = false from rfl]
    simp [h]
  · refine ⟨by simp [h], ?_⟩
    rw [show (Except.ok ⟨transaction_type, date_posted, amount, fit_id, check_num,
      ref_num, memo⟩ : Except String Transaction).isOk = true from rfl]
    simp [h]

theorem transaction_zero_amount_check_witness :
    (Transaction.init .CREDIT ⟨2025, 1, 1⟩ ⟨0, 2⟩ "F1" none none none =
        .error "Transaction amount cannot be zero" ↔ PyDecimal.toRat ⟨0, 2⟩ = 0) ∧
    ((Transaction.init .CREDIT ⟨2025, 1, 1⟩ ⟨0, 2⟩ "F1" none none none).isOk = true ↔
        ¬PyDecimal.toRat ⟨0, 2⟩ = 0) :=
  transaction_zero_amount_check .CREDIT ⟨2025, 1, 1⟩ ⟨0, 2⟩ "F1" none none none

/-- C2: the generator ignores its configured date formatter - a generator
constructed with `constDateFormatter` produces byte-identical output to the
default generator on the example statement, even though the two formatters
disagree on the statement's end date; every date element is emitted through
the module-level `format_datetime`. -/
theorem date_formatter_is_ignored :
    OFXGenerator.generate (OFXGenerator.init (some constDateFormatter) none) stmtEx "1001" =
      OFXGenerator.generate (OFXGenerator.init none none) stmtEx "1001" ∧
    constDateFormatter stmtEx.end_date ≠ DefaultDateFormatter.format stmtEx.end_date ∧
    format_datetime stmtEx.end_date = "20250131" := by
  refine ⟨rfl, by decide, rfl⟩

/-- C5: `generate` is a deterministic function of the statement and the
transaction uid - identical inputs give byte-identical output, whatever
generator instances perform the two calls, and the output is the fixed
headers followed by the serialized element tree of the input. -/
theorem generate_deterministic (g g' : OFXGenerator)
    (statement statement' : BankStatement) (trnuid trnuid' : String)
    (hs : statement = statement') (ht : trnuid = trnuid') :
    OFXGenerator.generate g statement trnuid =
      OFXGenerator.generate g' statement' trnuid' ∧
    OFXGenerator.generate g statement trnuid =
      xmlDeclaration ++ format_ofx_header ++ serializeXml (buildOFX statement trnuid) := by
  subst hs; subst ht; exact ⟨rfl, rfl⟩

theorem generate_deterministic_witness :
    OFXGenerator.generate (OFXGenerator.init none none) stmtEx "1001" =
      OFXGenerator.generate ⟨constDateFormatter, DefaultAmountFormatter.format⟩ stmtEx "1001" ∧
    OFXGenerator.generate (OFXGenerator.init none none) stmtEx "1001" =
      xmlDeclaration ++ format_ofx_header ++ serializeXml (buildOFX stmtEx "1001") :=
  generate_deterministic (OFXGenerator.init none none)
    ⟨constDateFormatter, DefaultAmountFormatter.format⟩ stmtEx stmtEx "1001" "1001" rfl rfl

/-- C4 counterexample: `validate_bank_id` accepts the one-character bank id
"é", whose character is not an ASCII letter or digit (Python's `isalnum` is
the Unicode predicate). -/
theorem validate_bank_id_not_ascii_only :
    validate_bank_id "é" = true ∧ Char.isAlphanum 'é' = false := by decide

/-- C4 (amended): `validate_bank_id s` is true iff `s` is non-empty, every
character of `s` is alphanumeric in the sense of Python's Unicode
`str.isalnum`, and `s` has at most 9 characters; `BankAccount` construction
(with valid other fields) succeeds exactly when `validate_bank_id` accepts
the bank id. -/
theorem validate_bank_id_spec (s : String) :
    (validate_bank_id s = true ↔
      s.length ≠ 0 ∧ (∀ c ∈ s.data, pyIsAlnum c = true) ∧ s.length ≤ 9) ∧
    ((BankAccount.make s "000000000" "CHECKING" none).isOk = true ↔
      validate_bank_id s = true) := by
  constructor
  · rw [validate_bank_id, Bool.and_assoc, Bool.and_eq_true, Bool.and_eq_true]
    simp only [Bool.not_eq_true', List.all_eq_true, decide_eq_true_eq]
    have h0 : s.isEmpty = false ↔ s.length ≠ 0 := by
      rw [← Bool.not_eq_true, String.isEmpty_iff]
      constructor
      · intro hne hlen
        exact hne (String.ext (List.length_eq_zero.mp hlen))
      · intro hlen he
        apply hlen
        rw [he]
        rfl
    rw [h0]
  · have ha : validate_account_id "000000000" = true := by decide
    cases hv : validate_bank_id s with
    | false =>
      rw [BankAccount.make, if_pos (by rw [hv]; rfl)]
      rw [show (Except.error "Invalid bank ID format" :
        Except String BankAccount).isOk = false from rfl]
    | true =>
      rw [BankAccount.make, if_neg (by rw [hv]; exact (by decide)),
        if_neg (by rw [ha]; exact (by decide)), if_neg (by decide)]
      rw [show AccountType.fromCode "CHECKING" = some AccountType.CHECKING from by decide]
      rw [show (Except.ok (⟨s, "000000000", AccountType.CHECKING, none⟩ : BankAccount) :
        Except String BankAccount).isOk = true from rfl]

theorem validate_bank_id_spec_witness :
    (validate_bank_id "BANK123" = true ↔
      String.length "BANK123" ≠ 0 ∧
        (∀ c ∈ String.data "BANK123", pyIsAlnum c = true) ∧
        String.length "BANK123" ≤ 9) ∧
    ((BankAccount.make "BANK123" "000000000" "CHECKING" none).isOk = true ↔
      validate_bank_id "BANK123" = true) :=
  validate_bank_id_spec "BANK123"

/-! ## Element-tree traversal lemmas -/

theorem elemsByTagList_append (tag : String) (l1 l2 : List XElem) :
    elemsByTagList tag (l1 ++ l2) = elemsByTagList tag l1 ++ elemsByTagList tag l2 := by
  induction l1 with
  | nil => simp [elemsByTagList]
  | cons c cs ih => simp [elemsByTagList, ih]

theorem elemsByTag_xleaf (tag t : String) (txt : Option String) :
    elemsByTag tag (xleaf t txt) = if t = tag then [xleaf t txt] else [] := by
  rw [xleaf, elemsByTag]
  rw [show elemsByTagList tag [] = [] from rfl]
  simp

theorem elemsByTagList_optionalTextElems (tag t : String) (o : Option String)
    (h : ¬t = tag) : elemsByTagList tag (optionalTextElems t o) = [] := by
  cases o with
  | none => rfl
  | some v =>
    rw [optionalTextElems]
    split
    · rfl
    · simp [elemsByTagList, elemsByTag_xleaf, h]

theorem elemsByTag_stmttrn (t : Transaction) :
    elemsByTag "STMTTRN" (stmttrnElem t) = [stmttrnElem t] := by
  conv_lhs => rw [stmttrnElem]
  rw [elemsByTag, elemsByTagList_append, elemsByTagList_append, elemsByTagList_append]
  rw [elemsByTagList_optionalTextElems _ _ _ (by decide),
    elemsByTagList_optionalTextElems _ _ _ (by decide),
    elemsByTagList_optionalTextElems _ _ _ (by decide)]
  simp [elemsByTagList, elemsByTag_xleaf, stmttrnElem]

theorem elemsByTagList_map_stmttrn (l : List Transaction) :
    elemsByTagList "STMTTRN" (l.map stmttrnElem) = l.map stmttrnElem := by
  induction l with
  | nil => rfl
  | cons t ts ih => simp [elemsByTagList, elemsByTag_stmttrn, ih]

theorem elemsByTagList_creditCard (tag : String) (o : Option CreditCardAccount)
    (h1 : ¬"CASHADVAVAILAMT" = tag) (h2 : ¬"CASHADVCREDITLIMIT" = tag) :
    elemsByTagList tag (creditCardInfoElems o) = [] := by
  cases o with
  | none => rfl
  | some cc => simp [creditCardInfoElems, elemsByTagList, elemsByTag_xleaf, h1, h2]

theorem elemsByTag_buildOFX_stmttrn (st : BankStatement) (uid : String) :
    elemsByTag "STMTTRN" (buildOFX st uid) = st.transactions.map stmttrnElem := by
  rw [buildOFX, createOFXElement, elemsByTag, elemsByTagList_append]
  rw [elemsByTagList_creditCard _ _ (by decide) (by decide)]
  simp [addSignonResponse, addBankStatement, addAccountInfo, addTransactions,
    addBalance, statusOkElem, xleaf, elemsByTag, elemsByTagList,
    elemsByTagList_map_stmttrn]

/-- C6: the STMTTRN aggregates of the generated document are exactly the
per-transaction aggregates of the statement's stored transaction list, in
that list's order, and their count is the length of that list. -/
theorem stmttrn_order_and_count (st : BankStatement) (uid : String) :
    elemsByTag "STMTTRN" (buildOFX st uid) = st.transactions.map stmttrnElem ∧
    (elemsByTag "STMTTRN" (buildOFX st uid)).length = st.transactions.length := by
  refine ⟨elemsByTag_buildOFX_stmttrn st uid, ?_⟩
  rw [elemsByTag_buildOFX_stmttrn, List.length_map]

/-- C7: a transaction of the statement appears as its STMTTRN aggregate in
the generated document, and for each optional field that is absent (`None`)
the aggregate contains no CHECKNUM / REFNUM / MEMO element at all. -/
theorem optional_fields_omitted (st : BankStatement) (uid : String)
    (t : Transaction) (ht : t ∈ st.transactions) :
    stmttrnElem t ∈ elemsByTag "STMTTRN" (buildOFX st uid) ∧
    (t.check_num = none → elemsByTag "CHECKNUM" (stmttrnElem t) = []) ∧
    (t.ref_num = none → elemsByTag "REFNUM" (stmttrnElem t) = []) ∧
    (t.memo = none → elemsByTag "MEMO" (stmttrnElem t) = []) := by
  refine ⟨?_, ?_, ?_, ?_⟩
  · rw [elemsByTag_buildOFX_stmttrn]
    exact List.mem_map_of_mem _ ht
  · intro h
    rw [stmttrnElem, h, elemsByTag, elemsByTagList_append, elemsByTagList_append,
      elemsByTagList_append,
      show optionalTextElems "CHECKNUM" none = [] from rfl,
      elemsByTagList_optionalTextElems "CHECKNUM" "REFNUM" t.ref_num (by decide),
      elemsByTagList_optionalTextElems "CHECKNUM" "MEMO" t.memo (by decide)]
    simp [elemsByTagList, xleaf, elemsByTag]
  · intro h
    rw [stmttrnElem, h, elemsByTag, elemsByTagList_append, elemsByTagList_append,
      elemsByTagList_append,
      show optionalTextElems "REFNUM" none = [] from rfl,
      elemsByTagList_optionalTextElems "REFNUM" "CHECKNUM" t.check_num (by decide),
      elemsByTagList_optionalTextElems "REFNUM" "MEMO" t.memo (by decide)]
    simp [elemsByTagList, xleaf, elemsByTag]
  · intro h
    rw [stmttrnElem, h, elemsByTag, elemsByTagList_append, elemsByTagList_append,
      elemsByTagList_append,
      show optionalTextElems "MEMO" none = [] from rfl,
      elemsByTagList_optionalTextElems "MEMO" "CHECKNUM" t.check_num (by decide),
      elemsByTagList_optionalTextElems "MEMO" "REFNUM" t.ref_num (by decide)]
    simp [elemsByTagList, xleaf, elemsByTag]

theorem optional_fields_omitted_witness :
    stmttrnElem txPayment ∈ elemsByTag "STMTTRN" (buildOFX stmtEx "1001") ∧
    (txPayment.check_num = none → elemsByTag "CHECKNUM" (stmttrnElem txPayment) = []) ∧
    (txPayment.ref_num = none → elemsByTag "REFNUM" (stmttrnElem txPayment) = []) ∧
    (txPayment.memo = none → elemsByTag "MEMO" (stmttrnElem txPayment) = []) :=
  optional_fields_omitted stmtEx "1001" txPayment (by simp [stmtEx])

theorem elemsByTag_stmttrn_ne (tag : String) (t : Transaction)
    (h1 : ¬"STMTTRN" = tag) (h2 : ¬"TRNTYPE" = tag) (h3 : ¬"DTPOSTED" = tag)
    (h4 : ¬"TRNAMT" = tag) (h5 : ¬"FITID" = tag) (h6 : ¬"CHECKNUM" = tag)
    (h7 : ¬"REFNUM" = tag) (h8 : ¬"MEMO" = tag) :
    elemsByTag tag (stmttrnElem t) = [] := by
  rw [stmttrnElem, elemsByTag, elemsByTagList_append, elemsByTagList_append,
    elemsByTagList_append, elemsByTagList_optionalTextElems _ _ _ h6,
    elemsByTagList_optionalTextElems _ _ _ h7,
    elemsByTagList_optionalTextElems _ _ _ h8]
  simp [elemsByTagList, xleaf, elemsByTag, h1, h2, h3, h4, h5]

theorem elemsByTagList_map_stmttrn_bankacctfrom (l : List Transaction) :
    elemsByTagList "BANKACCTFROM" (l.map stmttrnElem) = [] := by
  induction l with
  | nil => rfl
  | cons t ts ih =>
    simp [elemsByTagList, ih,
      elemsByTag_stmttrn_ne "BANKACCTFROM" t (by decide) (by decide) (by decide)
        (by decide) (by decide) (by decide) (by decide) (by decide)]

theorem elemsByTagList_map_stmttrn_branchid (l : List Transaction) :
    elemsByTagList "BRANCHID" (l.map stmttrnElem) = [] := by
  induction l with
  | nil => rfl
  | cons t ts ih =>
    simp [elemsByTagList, ih,
      elemsByTag_stmttrn_ne "BRANCHID" t (by decide) (by decide) (by decide)
        (by decide) (by decide) (by decide) (by decide) (by decide)]

theorem elemsByTag_buildOFX_bankacctfrom (st : BankStatement) (uid : String) :
    elemsByTag "BANKACCTFROM" (buildOFX st uid) = [addAccountInfo st.bank_account] := by
  rw [buildOFX, createOFXElement, elemsByTag, elemsByTagList_append,
    elemsByTagList_creditCard _ _ (by decide) (by decide)]
  simp [addSignonResponse, addBankStatement, addAccountInfo, addTransactions,
    addBalance, statusOkElem, xleaf, elemsByTag, elemsByTagList,
    elemsByTagList_map_stmttrn_bankacctfrom]

theorem elemsByTag_buildOFX_branchid (st : BankStatement) (uid : String) :
    elemsByTag "BRANCHID" (buildOFX st uid) =
      [xleaf "BRANCHID" st.bank_account.branch_id] := by
  rw [buildOFX, createOFXElement, elemsByTag, elemsByTagList_append,
    elemsByTagList_creditCard _ _ (by decide) (by decide)]
  simp [addSignonResponse, addBankStatement, addAccountInfo, addTransactions,
    addBalance, statusOkElem, xleaf, elemsByTag, elemsByTagList,
    elemsByTagList_map_stmttrn_branchid]

/-- C10: even when the bank account has no branch id, the generated document
contains exactly one BRANCHID element, inside the BANKACCTFROM aggregate,
and it serializes as the empty element "<BRANCHID />". -/
theorem branchid_always_emitted (st : BankStatement) (uid : String)
    (h : st.bank_account.branch_id = none) :
    elemsByTag "BANKACCTFROM" (buildOFX st uid) = [addAccountInfo st.bank_account] ∧
    xleaf "BRANCHID" none ∈ (addAccountInfo st.bank_account).children ∧
    elemsByTag "BRANCHID" (buildOFX st uid) = [xleaf "BRANCHID" none] ∧
    serializeXml (xleaf "BRANCHID" none) = "<BRANCHID />" := by
  refine ⟨elemsByTag_buildOFX_bankacctfrom st uid, ?_, ?_, rfl⟩
  · rw [addAccountInfo, ← h]
    simp [XElem.children]
  · rw [elemsByTag_buildOFX_branchid, h]

theorem branchid_always_emitted_witness :
    elemsByTag "BANKACCTFROM" (buildOFX stmtNoBranch "1001") =
      [addAccountInfo stmtNoBranch.bank_account] ∧
    xleaf "BRANCHID" none ∈ (addAccountInfo stmtNoBranch.bank_account).children ∧
    elemsByTag "BRANCHID" (buildOFX stmtNoBranch "1001") = [xleaf "BRANCHID" none] ∧
    serializeXml (xleaf "BRANCHID" none) = "<BRANCHID />" :=
  branchid_always_emitted stmtNoBranch "1001" rfl

/-! ## Digit-string lemmas for the amount formatter -/

theorem natDigitsAux_spec :
    ∀ fuel n : Nat, n < fuel →
      natDigitsAux n fuel ≠ [] ∧ (∀ c ∈ natDigitsAux n fuel, c.isDigit = true) ∧
      parseDigits (natDigitsAux n fuel) = n := by
  intro fuel
  induction fuel with
  | zero => intro n h; exact absurd h (Nat.not_lt_zero n)
  | succ fuel ih =>
    intro n h
    by_cases h10 : n < 10
    · refine ⟨by simp [natDigitsAux, h10], ?_, ?_⟩
      · intro c hc
        simp [natDigitsAux, h10] at hc
        exact hc ▸ digitChar_isDigit h10
      · simp [natDigitsAux, h10, parseDigits, digitChar_val h10]
    · have hlt : n / 10 < n := Nat.div_lt_self (by omega) (by norm_num)
      obtain ⟨ih1, ih2, ih3⟩ := ih (n / 10) (by omega)
      rw [show natDigitsAux n (fuel + 1) =
        natDigitsAux (n / 10) fuel ++ [Nat.digitChar (n % 10)] from by
          simp [natDigitsAux, h10]]
      refine ⟨by simp, ?_, ?_⟩
      · intro c hc
        rcases List.mem_append.mp hc with hc | hc
        · exact ih2 c hc
        · simp at hc
          exact hc ▸ digitChar_isDigit (Nat.mod_lt _ (by norm_num))
      · rw [parseDigits_append_last, ih3, digitChar_val (Nat.mod_lt _ (by norm_num))]
        omega

theorem natDigits_ne_nil (n : Nat) : natDigits n ≠ [] :=
  (natDigitsAux_spec (n + 1) n (by omega)).1

theorem natDigits_all_digit (n : Nat) : ∀ c ∈ natDigits n, c.isDigit = true :=
  (natDigitsAux_spec (n + 1) n (by omega)).2.1

theorem parseDigits_natDigits (n : Nat) : parseDigits (natDigits n) = n :=
  (natDigitsAux_spec (n + 1) n (by omega)).2.2

theorem digitsPad_two (p : Nat) :
    digitsPad p 2 = [Nat.digitChar (p / 10 % 10), Nat.digitChar (p % 10)] := rfl

theorem parseAmountPos_format (q p : Nat) (hp : p < 100) :
    parseAmountPos (natDigits q ++ '.' :: digitsPad p 2) =
      some ((q : ℚ) + (p : ℚ) / 100) := by
  rw [digitsPad_two]
  have hlen : (natDigits q ++ ['.', Nat.digitChar (p / 10 % 10),
      Nat.digitChar (p % 10)]).length = (natDigits q).length + 3 := by simp
  have hdrop : (natDigits q ++ ['.', Nat.digitChar (p / 10 % 10),
      Nat.digitChar (p % 10)]).drop
        ((natDigits q ++ ['.', Nat.digitChar (p / 10 % 10),
          Nat.digitChar (p % 10)]).length - 3) =
      ['.', Nat.digitChar (p / 10 % 10), Nat.digitChar (p % 10)] := by
    rw [hlen, Nat.add_sub_cancel, List.drop_left]
  have htake : (natDigits q ++ ['.', Nat.digitChar (p / 10 % 10),
      Nat.digitChar (p % 10)]).take
        ((natDigits q ++ ['.', Nat.digitChar (p / 10 % 10),
          Nat.digitChar (p % 10)]).length - 3) = natDigits q := by
    rw [hlen, Nat.add_sub_cancel, List.take_left]
  rw [parseAmountPos, hdrop, htake]
  simp only []
  have e1 : (Nat.digitChar (p / 10 % 10)).isDigit = true :=
    digitChar_isDigit (Nat.mod_lt _ (by norm_num))
  have e2 : (Nat.digitChar (p % 10)).isDigit = true :=
    digitChar_isDigit (Nat.mod_lt _ (by norm_num))
  have e3 : (natDigits q).isEmpty = false := by
    rcases hql : natDigits q with _ | ⟨c, cs⟩
    · exact absurd hql (natDigits_ne_nil q)
    · rfl
  have e4 : (natDigits q).all Char.isDigit = true := by
    simp only [List.all_eq_true]
    exact natDigits_all_digit q
  rw [if_pos (by simp [e1, e2, e3, e4])]
  have hd2 : parseDigits [Nat.digitChar (p / 10 % 10), Nat.digitChar (p % 10)] = p := by
    have f1 := digitChar_val (m := p / 10 % 10) (Nat.mod_lt _ (by norm_num))
    have f2 := digitChar_val (m := p % 10) (Nat.mod_lt _ (by norm_num))
    simp [parseDigits, f1, f2]
    omega
  rw [parseDigits_natDigits, hd2]

theorem format_data (d : PyDecimal) :
    (DefaultAmountFormatter.format d).data =
      (if d.mantissa < 0 then ['-'] else []) ++
        (natDigits (amountCents d / 100) ++ '.' :: digitsPad (amountCents d % 100) 2) := by
  rw [DefaultAmountFormatter.format]
  by_cases hm : d.mantissa < 0 <;> simp [hm, String.data_append]

theorem parseAmount_format (d : PyDecimal) :
    parseAmount (DefaultAmountFormatter.format d) =
      some (if d.mantissa < 0 then -((amountCents d : ℚ) / 100)
            else (amountCents d : ℚ) / 100) := by
  have hp : amountCents d % 100 < 100 := Nat.mod_lt _ (by norm_num)
  have hpos := parseAmountPos_format (amountCents d / 100) (amountCents d % 100) hp
  have hval : ((amountCents d / 100 : ℕ) : ℚ) + ((amountCents d % 100 : ℕ) : ℚ) / 100 =
      (amountCents d : ℚ) / 100 := by
    field_simp
    norm_cast
    omega
  rw [hval] at hpos
  rw [parseAmount, format_data]
  by_cases hm : d.mantissa < 0
  · simp only [hm, if_true, List.cons_append, List.nil_append]
    rw [hpos]
    simp
  · simp only [hm, if_false, List.nil_append]
    obtain ⟨ch, tl, hnd⟩ := List.exists_cons_of_ne_nil (natDigits_ne_nil (amountCents d / 100))
    have hch : ch.isDigit = true :=
      natDigits_all_digit _ ch (by rw [hnd]; exact List.mem_cons_self _ _)
    have hch' : ¬ch = '-' := by
      intro e
      rw [e] at hch
      exact absurd hch (by decide)
    rw [hnd]
    simp only [List.cons_append]
    rw [if_neg hch', ← List.cons_append, ← hnd, hpos]

theorem roundHalfEvenNat_bound (a den : Nat) (hpos : 0 < den) (heven : den % 2 = 0) :
    2 * ((a : ℤ) - (roundHalfEvenNat a den : ℤ) * den).natAbs ≤ den ∧
    (2 * ((a : ℤ) - (roundHalfEvenNat a den : ℤ) * den).natAbs = den →
      roundHalfEvenNat a den % 2 = 0) := by
  have hdm : den * (a / den) + a % den = a := Nat.div_add_mod a den
  have hdmz : (den : ℤ) * ((a / den : ℕ) : ℤ) + ((a % den : ℕ) : ℤ) = (a : ℤ) := by
    exact_mod_cast hdm
  have hra : a % den < den := Nat.mod_lt _ hpos
  have key1 : (a : ℤ) - ((a / den : ℕ) : ℤ) * (den : ℤ) = ((a % den : ℕ) : ℤ) := by
    linear_combination (-1 : ℤ) * hdmz
  have key2 : (a : ℤ) - (((a / den : ℕ) : ℤ) + 1) * (den : ℤ) =
      ((a % den : ℕ) : ℤ) - den := by
    linear_combination (-1 : ℤ) * hdmz
  simp only [roundHalfEvenNat]
  split_ifs with h1 h2 h3
  · rw [key1]
    exact ⟨by omega, by omega⟩
  · rw [Nat.cast_add, Nat.cast_one, key2]
    exact ⟨by omega, by omega⟩
  · rw [key1]
    exact ⟨by omega, fun _ => h3⟩
  · rw [Nat.cast_add, Nat.cast_one, key2]
    exact ⟨by omega, fun _ => by omega⟩

/-- C9: the default amount formatter produces a string of the exact shape
optional minus sign, decimal digits, point, exactly two fractional digits
(certified by `parseAmount` succeeding); the leading minus appears exactly
for a negative coefficient and a plus never appears; the denoted value is a
multiple of 1/100 that is exact when the input has at most two fractional
digits and is the half-to-even rounding of the input otherwise (within
1/200, ties resolved to an even cent count). -/
theorem default_amount_formatter_spec (d : PyDecimal) :
    ∃ k : ℤ,
      parseAmount (DefaultAmountFormatter.format d) = some ((k : ℚ) / 100) ∧
      ((DefaultAmountFormatter.format d).data.head? = some '-' ↔ d.mantissa < 0) ∧
      (d.scale ≤ 2 → (k : ℚ) / 100 = d.toRat) ∧
      |d.toRat - (k : ℚ) / 100| ≤ 1 / 200 ∧
      (|d.toRat - (k : ℚ) / 100| = 1 / 200 → k % 2 = 0) := by
  set a := d.mantissa.natAbs with ha
  set c := amountCents d with hc
  have hmq : (d.mantissa : ℚ) = (if d.mantissa < 0 then -(a : ℚ) else (a : ℚ)) := by
    split_ifs with hm
    · rw [ha, Int.cast_natAbs, abs_of_neg hm]
      push_cast
      ring
    · rw [ha, Int.cast_natAbs, abs_of_nonneg (not_lt.mp hm)]
  have hceq : d.scale ≤ 2 → (c : ℚ) / 100 = (a : ℚ) / 10 ^ d.scale := by
    intro hs
    rw [hc, amountCents, if_pos hs, ← ha]
    push_cast
    rw [div_eq_div_iff (by norm_num) (by positivity)]
    rw [mul_assoc, ← pow_add, show 2 - d.scale + d.scale = 2 from by omega]
    norm_num
  have hbound : |(a : ℚ) / 10 ^ d.scale - (c : ℚ) / 100| ≤ 1 / 200 ∧
      (|(a : ℚ) / 10 ^ d.scale - (c : ℚ) / 100| = 1 / 200 → c % 2 = 0) := by
    by_cases hs : d.scale ≤ 2
    · rw [hceq hs, sub_self, abs_zero]
      exact ⟨by norm_num, fun h => absurd h.symm (by norm_num)⟩
    · set t := d.scale - 2 with ht0
      have ht : d.scale = t + 2 := by omega
      set den := 10 ^ t with hden0
      have hden : 0 < den := by
        rw [hden0]
        exact Nat.pos_pow_of_pos t (by norm_num)
      have hdenq : ((den : ℕ) : ℚ) ≠ 0 := Nat.cast_ne_zero.mpr hden.ne'
      have heven : den % 2 = 0 := by
        rw [hden0, show t = (t - 1) + 1 from by omega, pow_succ]
        omega
      have hcrnd : c = roundHalfEvenNat a den := by
        rw [hc, amountCents, if_neg hs, ← ha, ← ht0, ← hden0]
      obtain ⟨hb1, hb2⟩ := roundHalfEvenNat_bound a den hden heven
      rw [← hcrnd] at hb1 hb2
      set A : ℤ := (a : ℤ) - (c : ℤ) * den with hA0
      set N : ℕ := A.natAbs with hN0
      have habsA : |(A : ℚ)| = (N : ℚ) := by
        rw [hN0, ← Int.cast_abs, Int.abs_eq_natAbs, Int.cast_natCast]
      have h10 : ((10 : ℚ)) ^ d.scale = 100 * (den : ℚ) := by
        rw [ht, hden0, pow_add]
        push_cast
        ring
      have hA : (a : ℚ) / 10 ^ d.scale - (c : ℚ) / 100 = (A : ℚ) / 10 ^ d.scale := by
        rw [hA0]
        push_cast
        rw [h10]
        field_simp
        ring
      rw [hA, abs_div, abs_of_pos (by positivity : (0 : ℚ) < 10 ^ d.scale), habsA]
      constructor
      · rw [div_le_div_iff (by positivity) (by norm_num), h10]
        have hq : (200 : ℚ) * (N : ℚ) ≤ 100 * (den : ℚ) := by
          exact_mod_cast (by omega : 200 * N ≤ 100 * den)
        linarith
      · intro h
        rw [div_eq_div_iff (by positivity) (by norm_num), h10] at h
        have hq : (200 : ℚ) * (N : ℚ) = 100 * (den : ℚ) := by
          linarith [h]
        have hq2 : 200 * N = 100 * den := by
          exact_mod_cast hq
        exact hb2 (by omega)
  by_cases hm : d.mantissa < 0
  · have he : d.toRat - ((-(c : ℤ) : ℤ) : ℚ) / 100 =
        -((a : ℚ) / 10 ^ d.scale - (c : ℚ) / 100) := by
      rw [PyDecimal.toRat, hmq, if_pos hm]
      push_cast
      ring
    refine ⟨-(c : ℤ), ?_, ?_, ?_, ?_, ?_⟩
    · rw [parseAmount_format d, ← hc, if_pos hm]
      push_cast
      rw [neg_div]
    · rw [format_data d, ← hc, if_pos hm]
      simp [hm]
    · intro hs
      rw [PyDecimal.toRat, hmq, if_pos hm]
      push_cast
      rw [neg_div, neg_div, hceq hs]
    · rw [he, abs_neg]
      exact hbound.1
    · intro h
      rw [he, abs_neg] at h
      have hc2 := hbound.2 h
      omega
  · have he : d.toRat - (((c : ℤ) : ℤ) : ℚ) / 100 =
        (a : ℚ) / 10 ^ d.scale - (c : ℚ) / 100 := by
      rw [PyDecimal.toRat, hmq, if_neg hm]
      push_cast
      ring
    refine ⟨(c : ℤ), ?_, ?_, ?_, ?_, ?_⟩
    · rw [parseAmount_format d, ← hc, if_neg hm, Int.cast_natCast]
    · rw [format_data d, ← hc, if_neg hm]
      simp only [List.nil_append]
      obtain ⟨ch, tl, hnd⟩ := List.exists_cons_of_ne_nil (natDigits_ne_nil (c / 100))
      have hch : ch.isDigit = true :=
        natDigits_all_digit _ ch (by rw [hnd]; exact List.mem_cons_self _ _)
      rw [hnd]
      simp only [List.cons_append, List.head?_cons]
      constructor
      · intro he2
        injection he2 with he'
        rw [he'] at hch
        exact absurd hch (by decide)
      · intro hmm'
        exact absurd hmm' hm
    · intro hs
      rw [PyDecimal.toRat, hmq, if_neg hm]
      push_cast
      rw [hceq hs]
    · rw [he]
      exact hbound.1
    · intro h
      rw [he] at h
      have hc2 := hbound.2 h
      omega

end OFX
